import Mathlib

/-!
Verification of the chainhockey game core: a shallow embedding of the
match controller (GameScene), the entities (Puck, Striker, Hammer, Goal),
the chain system, and the Matter.js collision-filter semantics the bodies
are created under, together with theorems settling the specification
claims.  Positions and velocities are modelled over the rationals.
-/

namespace ChainHockey

/-! ## Configuration constants, from game/config.js -/

def GAME_WIDTH : ℚ := 1200
def GAME_HEIGHT : ℚ := 700
def CENTER_LINE_X : ℚ := 600
def STRIKER_RADIUS : ℚ := 20
def HAMMER_RADIUS : ℚ := 35
def PUCK_RADIUS : ℚ := 15
def CHAIN_SEGMENTS : ℕ := 8
def SEGMENT_LENGTH : ℚ := 20
def CHAIN_STIFFNESS : ℚ := 7/10
def CHAIN_DAMPING : ℚ := 1/20
def GAME_DURATION_SECONDS : ℤ := 300
def MAX_GOALS : ℕ := 10
def GOAL_DELAY_FRAMES : ℕ := 60
def PLAYER1_SPAWN_X : ℚ := 900
def PLAYER2_SPAWN_X : ℚ := 300
def PLAYER_SPAWN_Y : ℚ := 350

namespace CATEGORY

def PUCK : ℕ := 0x0001
def STRIKER : ℕ := 0x0002
def HAMMER : ℕ := 0x0004
def WALL : ℕ := 0x0008
def GOAL : ℕ := 0x0010
def CHAIN : ℕ := 0x0020

end CATEGORY

/-! ## Collision filtering

Matter.js gives every body a collision filter with a category bitmask and
a mask bitmask; the default filter is category 0x0001, mask 0xFFFFFFFF,
group 0.  No body in this codebase sets a group, so the group branch of
Detector.canCollide never applies and two bodies may collide exactly when
each mask accepts the other category. -/

structure CollisionFilter where
  category : ℕ
  mask : ℕ
deriving DecidableEq, Repr

def canCollide (a b : CollisionFilter) : Bool :=
  (a.mask &&& b.category ≠ 0) && (b.mask &&& a.category ≠ 0)

/-- Filter of the puck body, from Puck.js: category PUCK, mask
STRIKER or HAMMER or WALL. -/
def puckFilter : CollisionFilter :=
  ⟨CATEGORY.PUCK, CATEGORY.STRIKER ||| CATEGORY.HAMMER ||| CATEGORY.WALL⟩

/-- Filter of a striker body: category STRIKER, mask PUCK or WALL. -/
def strikerFilter : CollisionFilter :=
  ⟨CATEGORY.STRIKER, CATEGORY.PUCK ||| CATEGORY.WALL⟩

/-- Filter of a hammer body, from Hammer.js: category HAMMER, mask PUCK or WALL. -/
def hammerFilter : CollisionFilter :=
  ⟨CATEGORY.HAMMER, CATEGORY.PUCK ||| CATEGORY.WALL⟩

/-- Filter of a wall body, from GameScene.createWalls: category WALL, no
mask given, so the Matter.js default mask 0xFFFFFFFF applies. -/
def wallFilter : CollisionFilter := ⟨CATEGORY.WALL, 0xFFFFFFFF⟩

/-- Filter of a goal sensor body, from Goal.js: category GOAL, mask PUCK. -/
def goalFilter : CollisionFilter := ⟨CATEGORY.GOAL, CATEGORY.PUCK⟩

/-- Filter of a chain segment body, from ChainSystem.createChain:
category CHAIN, mask 0 (no collisions). -/
def chainFilter : CollisionFilter := ⟨CATEGORY.CHAIN, 0⟩

/-- The six kinds of physics bodies the scene creates. -/
inductive BodyKind
  | puck
  | striker
  | hammer
  | wall
  | goal
  | chainLink
deriving DecidableEq, Repr, Fintype

def kindFilter : BodyKind → CollisionFilter
  | .puck => puckFilter
  | .striker => strikerFilter
  | .hammer => hammerFilter
  | .wall => wallFilter
  | .goal => goalFilter
  | .chainLink => chainFilter

/-- Walls and goals are created with isStatic true; the rest are dynamic. -/
def kindIsStatic : BodyKind → Bool
  | .wall => true
  | .goal => true
  | _ => false

/-- Only the goal bodies are created with isSensor true. -/
def kindIsSensor : BodyKind → Bool
  | .goal => true
  | _ => false

/-- A pair of bodies resolves mechanically in Matter.js when the filters
accept each other, at least one body is dynamic (the detector skips
static-static pairs), and neither is a sensor (sensor overlaps produce
events but no mechanical response). -/
def mechanicallyCollides (a b : BodyKind) : Bool :=
  canCollide (kindFilter a) (kindFilter b)
    && !(kindIsStatic a && kindIsStatic b)
    && !kindIsSensor a && !kindIsSensor b

/-! ## Collision dispatcher, from GameScene.setupCollisions

For each contact-begin pair the handler runs two independent checks on
the two body labels: the left-goal check fires onGoalScored with side
left, the right-goal check with side right.  pairGoalEvents lists the
sides raised for one pair, in order. -/

def pairGoalEvents (labelA labelB : String) : List String :=
  (if (labelA = "puck" ∧ labelB = "goal_left") ∨
      (labelB = "puck" ∧ labelA = "goal_left") then ["left"] else [])
    ++
  (if (labelA = "puck" ∧ labelB = "goal_right") ∨
      (labelB = "puck" ∧ labelA = "goal_right") then ["right"] else [])

/-! ## Geometry -/

structure Vec2 where
  x : ℚ
  y : ℚ
deriving DecidableEq, Repr

/-- Phaser.Math.Clamp(value, min, max) is min(max(value, min), max). -/
def Clamp (value lo hi : ℚ) : ℚ := min (max value lo) hi

/-! ## Puck, from game/objects/Puck.js

The constructor stores the spawn coordinates in startX/startY and
creates the body there at rest.  resetCount is a ghost event counter
recording how many times reset has run on this puck; it changes only in
reset and lets invocation counts be stated. -/

structure PuckState where
  startX : ℚ
  startY : ℚ
  pos : Vec2
  vel : Vec2
  angVel : ℚ
  resetCount : ℕ
deriving DecidableEq, Repr

def Puck.init (x y : ℚ) : PuckState :=
  { startX := x, startY := y, pos := ⟨x, y⟩, vel := ⟨0, 0⟩,
    angVel := 0, resetCount := 0 }

/-- Puck.reset: set position to the stored spawn coordinates, linear
velocity to (0, 0) and angular velocity to 0. -/
def Puck.reset (p : PuckState) : PuckState :=
  { p with pos := ⟨p.startX, p.startY⟩, vel := ⟨0, 0⟩, angVel := 0,
           resetCount := p.resetCount + 1 }

/-- GameScene.createPuck builds the puck at the field centre. -/
def createPuck : PuckState := Puck.init (GAME_WIDTH / 2) (GAME_HEIGHT / 2)

/-! ## Striker, from the Striker class -/

structure StrikerState where
  playerNum : ℕ
  startX : ℚ
  startY : ℚ
  minX : ℚ
  maxX : ℚ
  minY : ℚ
  maxY : ℚ
  pos : Vec2
deriving DecidableEq, Repr

/-- The Striker constructor: player 1 gets the right half band, any
other player number the left half band, both the full vertical range
minus the radius; the body is created at (x, y). -/
def Striker.init (x y : ℚ) (playerNum : ℕ) : StrikerState :=
  { playerNum := playerNum
    startX := x
    startY := y
    minX := if playerNum = 1 then CENTER_LINE_X + STRIKER_RADIUS else STRIKER_RADIUS
    maxX := if playerNum = 1 then GAME_WIDTH - STRIKER_RADIUS
            else CENTER_LINE_X - STRIKER_RADIUS
    minY := STRIKER_RADIUS
    maxY := GAME_HEIGHT - STRIKER_RADIUS
    pos := ⟨x, y⟩ }

/-- Striker.setPosition: clamp each coordinate into the movement band,
then set the body position there. -/
def Striker.setPosition (st : StrikerState) (x y : ℚ) : StrikerState :=
  { st with pos := ⟨Clamp x st.minX st.maxX, Clamp y st.minY st.maxY⟩ }

/-! ## Match controller state, from GameScene

finishedSignals is a ghost counter of the end-of-match notifications
endGame schedules (the delayed transition to GameOverScene); it changes
only in endGame and lets re-firing be stated.  winner is none until
endGame records it; the code passes 0 for a tie. -/

structure GameState where
  player1Score : ℕ
  player2Score : ℕ
  gameTime : ℤ
  gameOver : Bool
  goalDelay : ℕ
  winner : Option ℕ
  puck : PuckState
  finishedSignals : ℕ
deriving DecidableEq, Repr

/-- GameScene.create initial controller state. -/
def GameScene.init : GameState :=
  { player1Score := 0, player2Score := 0, gameTime := GAME_DURATION_SECONDS,
    gameOver := false, goalDelay := 0, winner := none, puck := createPuck,
    finishedSignals := 0 }

/-- GameScene.endGame: mark the game over, record the winner, and
schedule the match-finished transition. -/
def endGame (w : ℕ) (s : GameState) : GameState :=
  { s with gameOver := true, winner := some w,
           finishedSignals := s.finishedSignals + 1 }

/-- GameScene.checkWinCondition: no effect once over; player 1 then
player 2 checked against MAX_GOALS; otherwise at time up the strictly
higher score wins, equal scores give endGame 0 (tie). -/
def checkWinCondition (s : GameState) : GameState :=
  if s.gameOver then s
  else if s.player1Score ≥ MAX_GOALS then endGame 1 s
  else if s.player2Score ≥ MAX_GOALS then endGame 2 s
  else if s.gameTime ≤ 0 then
    if s.player1Score > s.player2Score then endGame 1 s
    else if s.player2Score > s.player1Score then endGame 2 s
    else endGame 0 s
  else s

/-- GameScene.onGoalScored: guarded by the goal delay and the game-over
flag; the left side increments player 2, any other side player 1; then
the puck is reset, the delay set to GOAL_DELAY_FRAMES, and the win
condition evaluated. -/
def onGoalScored (side : String) (s : GameState) : GameState :=
  if 0 < s.goalDelay ∨ s.gameOver then s
  else
    let s1 := if side = "left"
      then { s with player2Score := s.player2Score + 1 }
      else { s with player1Score := s.player1Score + 1 }
    let s2 := { s1 with puck := Puck.reset s1.puck }
    let s3 := { s2 with goalDelay := GOAL_DELAY_FRAMES }
    checkWinCondition s3

/-- GameScene.updateTimer: no effect once over; decrement the clock and,
when it reaches 0, clamp to 0 and evaluate the win condition. -/
def updateTimer (s : GameState) : GameState :=
  if s.gameOver then s
  else if s.gameTime - 1 ≤ 0 then checkWinCondition { s with gameTime := 0 }
  else { s with gameTime := s.gameTime - 1 }

/-- One per-player input sample from the touch input manager. -/
structure InputSample where
  x : ℚ
  y : ℚ
  active : Bool
deriving DecidableEq, Repr

/-- GameScene.update, controller part: return immediately once over;
otherwise decrement a positive goal delay by one and apply each active
input sample to its striker.  The remaining entity update calls redraw,
and clamp only the hammers, so they leave the controller state and the
strikers unchanged. -/
def GameScene.update (p1 p2 : InputSample) (s : GameState)
    (st1 st2 : StrikerState) : GameState × StrikerState × StrikerState :=
  if s.gameOver then (s, st1, st2)
  else
    let s1 := if 0 < s.goalDelay then { s with goalDelay := s.goalDelay - 1 } else s
    let st1a := if p1.active then Striker.setPosition st1 p1.x p1.y else st1
    let st2a := if p2.active then Striker.setPosition st2 p2.x p2.y else st2
    (s1, st1a, st2a)

/-! ## Chain system, from the ChainSystem class -/

/-- Endpoint of a chain constraint: the striker body, the chain segment
with the given index, or the hammer body. -/
inductive ChainEndpoint
  | strikerBody
  | segment (i : ℕ)
  | hammerBody
deriving DecidableEq, Repr

structure ChainConstraint where
  bodyA : ChainEndpoint
  bodyB : ChainEndpoint
  clength : ℚ
  stiffness : ℚ
  damping : ℚ
deriving DecidableEq, Repr

/-- ChainSystem.createChain: place CHAIN_SEGMENTS segment bodies at
strikerPos + (hammerPos - strikerPos) * (i+1)/(segments+1), then build
the constraints striker to segment 0, each segment to the next, and the
last segment to the hammer, all with length SEGMENT_LENGTH, stiffness
CHAIN_STIFFNESS and damping CHAIN_DAMPING.  Returns the segment
positions and the constraint list in creation order. -/
def ChainSystem.createChain (strikerPos hammerPos : Vec2) :
    List Vec2 × List ChainConstraint :=
  let numSegments := CHAIN_SEGMENTS
  let dx := (hammerPos.x - strikerPos.x) / (numSegments + 1)
  let dy := (hammerPos.y - strikerPos.y) / (numSegments + 1)
  let segments := (List.range numSegments).map (fun i : ℕ =>
    (⟨strikerPos.x + dx * ((i : ℚ) + 1), strikerPos.y + dy * ((i : ℚ) + 1)⟩ : Vec2))
  let firstConstraint : ChainConstraint :=
    ⟨.strikerBody, .segment 0, SEGMENT_LENGTH, CHAIN_STIFFNESS, CHAIN_DAMPING⟩
  let midConstraints := (List.range (segments.length - 1)).map (fun i =>
    (⟨.segment i, .segment (i + 1), SEGMENT_LENGTH, CHAIN_STIFFNESS,
      CHAIN_DAMPING⟩ : ChainConstraint))
  let lastConstraint : ChainConstraint :=
    ⟨.segment (segments.length - 1), .hammerBody, SEGMENT_LENGTH,
     CHAIN_STIFFNESS, CHAIN_DAMPING⟩
  (segments, firstConstraint :: midConstraints ++ [lastConstraint])

/-- Sum of the two scores, used to count increments across a burst. -/
def totalScore (s : GameState) : ℕ := s.player1Score + s.player2Score

/-- Controller state with given scores and clock, used as a concrete
test fixture in witnesses. -/
def stateWithScores (p1 p2 : ℕ) (t : ℤ) : GameState :=
  { GameScene.init with player1Score := p1, player2Score := p2, gameTime := t }

/-! ## Helper lemmas -/

theorem checkWinCondition_player1Score (s : GameState) :
    (checkWinCondition s).player1Score = s.player1Score := by
  unfold checkWinCondition endGame
  split_ifs <;> rfl

theorem checkWinCondition_player2Score (s : GameState) :
    (checkWinCondition s).player2Score = s.player2Score := by
  unfold checkWinCondition endGame
  split_ifs <;> rfl

theorem checkWinCondition_goalDelay (s : GameState) :
    (checkWinCondition s).goalDelay = s.goalDelay := by
  unfold checkWinCondition endGame
  split_ifs <;> rfl

theorem checkWinCondition_puck (s : GameState) :
    (checkWinCondition s).puck = s.puck := by
  unfold checkWinCondition endGame
  split_ifs <;> rfl

theorem onGoalScored_of_delay_pos (side : String) (s : GameState)
    (h : 0 < s.goalDelay) : onGoalScored side s = s := by
  unfold onGoalScored
  rw [if_pos (Or.inl h)]

theorem foldl_onGoalScored_of_delay_pos (sides : List String) (s : GameState)
    (h : 0 < s.goalDelay) :
    sides.foldl (fun st sd => onGoalScored sd st) s = s := by
  induction sides with
  | nil => rfl
  | cons sd rest ih =>
    simp only [List.foldl_cons, onGoalScored_of_delay_pos sd s h]
    exact ih

theorem onGoalScored_fresh_eq (side : String) (s : GameState)
    (h0 : s.gameOver = false) (h1 : s.goalDelay = 0) :
    onGoalScored side s =
      checkWinCondition
        { (if side = "left"
           then { s with player2Score := s.player2Score + 1 }
           else { s with player1Score := s.player1Score + 1 }) with
          puck := Puck.reset s.puck, goalDelay := GOAL_DELAY_FRAMES } := by
  unfold onGoalScored
  rw [if_neg]
  · by_cases hs : side = "left" <;> simp [hs]
  · simp [h0, h1]

/-! ## Claim theorems -/

/-- Claim C1 (code bug): the dispatcher does raise exactly one
GoalScored event per contact pair joining the puck label and a goal
label, in either body order; but with the collision filters the bodies
are created with, Matter.js can never produce such a contact pair at
all, because the puck mask (STRIKER or HAMMER or WALL) does not accept
the goal category, so a puck entering a goal sensor is never detected. -/
theorem goal_detection_blocked_by_mask :
    pairGoalEvents ("puck") ("goal_left") = ["left"] ∧
    pairGoalEvents ("goal_left") ("puck") = ["left"] ∧
    pairGoalEvents ("puck") ("goal_right") = ["right"] ∧
    pairGoalEvents ("goal_right") ("puck") = ["right"] ∧
    canCollide puckFilter goalFilter = false := by
  decide

/-- Claim C10: the pairs of body kinds that collide mechanically are
exactly puck-striker, puck-hammer, puck-wall, striker-wall and
hammer-wall; in particular strikers and hammers never collide with each
other and chain links collide with nothing. -/
theorem collision_pair_matrix :
    ∀ a b : BodyKind, mechanicallyCollides a b = true ↔
      ((a = .puck ∧ b = .striker) ∨ (a = .striker ∧ b = .puck) ∨
       (a = .puck ∧ b = .hammer) ∨ (a = .hammer ∧ b = .puck) ∨
       (a = .puck ∧ b = .wall) ∨ (a = .wall ∧ b = .puck) ∨
       (a = .striker ∧ b = .wall) ∨ (a = .wall ∧ b = .striker) ∨
       (a = .hammer ∧ b = .wall) ∨ (a = .wall ∧ b = .hammer)) := by
  decide

/-- Claim C2: in a state that is not over and has no goal delay, a left
goal increments player 2 by exactly one and leaves player 1 unchanged, a
right goal increments player 1 by exactly one and leaves player 2
unchanged, and in the same call the puck is reset and the goal delay
set to the configured cooldown before the win condition is evaluated. -/
theorem onGoalScored_scores_and_resets (s : GameState)
    (h0 : s.gameOver = false) (h1 : s.goalDelay = 0) :
    (onGoalScored ("left") s).player2Score = s.player2Score + 1 ∧
    (onGoalScored ("left") s).player1Score = s.player1Score ∧
    (onGoalScored ("right") s).player1Score = s.player1Score + 1 ∧
    (onGoalScored ("right") s).player2Score = s.player2Score ∧
    (onGoalScored ("left") s).puck = Puck.reset s.puck ∧
    (onGoalScored ("right") s).puck = Puck.reset s.puck ∧
    (onGoalScored ("left") s).goalDelay = GOAL_DELAY_FRAMES ∧
    (onGoalScored ("right") s).goalDelay = GOAL_DELAY_FRAMES ∧
    onGoalScored ("left") s =
      checkWinCondition
        { s with player2Score := s.player2Score + 1,
                 puck := Puck.reset s.puck, goalDelay := GOAL_DELAY_FRAMES } ∧
    onGoalScored ("right") s =
      checkWinCondition
        { s with player1Score := s.player1Score + 1,
                 puck := Puck.reset s.puck, goalDelay := GOAL_DELAY_FRAMES } := by
  have el := onGoalScored_fresh_eq ("left") s h0 h1
  have er := onGoalScored_fresh_eq ("right") s h0 h1
  simp only [reduceIte, String.reduceEq] at el er
  rw [el, er]
  refine ⟨?_, ?_, ?_, ?_, ?_, ?_, ?_, ?_, rfl, rfl⟩ <;>
    simp [checkWinCondition_player1Score, checkWinCondition_player2Score,
      checkWinCondition_puck, checkWinCondition_goalDelay]

/-- Witness for claim C2 at the initial controller state. -/
theorem onGoalScored_scores_and_resets_witness :
    (GameScene.init.gameOver = false ∧ GameScene.init.goalDelay = 0) ∧
    ((onGoalScored ("left") GameScene.init).player2Score =
        GameScene.init.player2Score + 1 ∧
     (onGoalScored ("left") GameScene.init).player1Score =
        GameScene.init.player1Score ∧
     (onGoalScored ("right") GameScene.init).player1Score =
        GameScene.init.player1Score + 1 ∧
     (onGoalScored ("right") GameScene.init).player2Score =
        GameScene.init.player2Score ∧
     (onGoalScored ("left") GameScene.init).puck =
        Puck.reset GameScene.init.puck ∧
     (onGoalScored ("right") GameScene.init).puck =
        Puck.reset GameScene.init.puck ∧
     (onGoalScored ("left") GameScene.init).goalDelay = GOAL_DELAY_FRAMES ∧
     (onGoalScored ("right") GameScene.init).goalDelay = GOAL_DELAY_FRAMES ∧
     onGoalScored ("left") GameScene.init =
       checkWinCondition
         { GameScene.init with
             player2Score := GameScene.init.player2Score + 1,
             puck := Puck.reset GameScene.init.puck,
             goalDelay := GOAL_DELAY_FRAMES } ∧
     onGoalScored ("right") GameScene.init =
       checkWinCondition
         { GameScene.init with
             player1Score := GameScene.init.player1Score + 1,
             puck := Puck.reset GameScene.init.puck,
             goalDelay := GOAL_DELAY_FRAMES }) :=
  ⟨⟨rfl, rfl⟩, onGoalScored_scores_and_resets GameScene.init rfl rfl⟩

/-- Claim C3: while the goal delay is positive or the game is over,
onGoalScored is a complete no-op for either side; a burst of one or
more goal events starting from a fresh state produces exactly one score
increment in total; and the per-frame update decrements a positive goal
delay by exactly one. -/
theorem goal_reentrancy_guard
    (s s2 s3 : GameState) (side : String) (sides : List String)
    (p1 p2 : InputSample) (st1 st2 : StrikerState)
    (hg : 0 < s2.goalDelay ∨ s2.gameOver = true)
    (h0 : s.gameOver = false) (h1 : s.goalDelay = 0) (hne : sides ≠ [])
    (h2 : s3.gameOver = false) (h3 : 0 < s3.goalDelay) :
    onGoalScored side s2 = s2 ∧
    totalScore (sides.foldl (fun st sd => onGoalScored sd st) s) =
      totalScore s + 1 ∧
    (GameScene.update p1 p2 s3 st1 st2).1.goalDelay = s3.goalDelay - 1 := by
  refine ⟨?_, ?_, ?_⟩
  · unfold onGoalScored
    rw [if_pos hg]
  · obtain ⟨sd, rest, rfl⟩ := List.exists_cons_of_ne_nil hne
    rw [List.foldl_cons]
    have hfresh := onGoalScored_fresh_eq sd s h0 h1
    have hpos : 0 < (onGoalScored sd s).goalDelay := by
      rw [hfresh, checkWinCondition_goalDelay]
      norm_num [GOAL_DELAY_FRAMES]
    rw [foldl_onGoalScored_of_delay_pos rest _ hpos, hfresh]
    unfold totalScore
    rw [checkWinCondition_player1Score, checkWinCondition_player2Score]
    by_cases hs : sd = "left" <;> simp [hs] <;> omega
  · simp [GameScene.update, h2, h3]

/-- Witness for claim C3 with a three-event burst and concrete states. -/
theorem goal_reentrancy_guard_witness :
    ((0 < ({ GameScene.init with goalDelay := 5 } : GameState).goalDelay ∨
      ({ GameScene.init with goalDelay := 5 } : GameState).gameOver = true) ∧
     GameScene.init.gameOver = false ∧ GameScene.init.goalDelay = 0 ∧
     (["left", "right", "left"] : List String) ≠ [] ∧
     ({ GameScene.init with goalDelay := 2 } : GameState).gameOver = false ∧
     0 < ({ GameScene.init with goalDelay := 2 } : GameState).goalDelay) ∧
    (onGoalScored ("left") { GameScene.init with goalDelay := 5 } =
       { GameScene.init with goalDelay := 5 } ∧
     totalScore ((["left", "right", "left"] : List String).foldl
         (fun st sd => onGoalScored sd st) GameScene.init) =
       totalScore GameScene.init + 1 ∧
     (GameScene.update ⟨0, 0, false⟩ ⟨0, 0, true⟩
         { GameScene.init with goalDelay := 2 }
         (Striker.init 900 350 1) (Striker.init 300 350 2)).1.goalDelay =
       ({ GameScene.init with goalDelay := 2 } : GameState).goalDelay - 1) :=
  ⟨⟨Or.inl (by decide), rfl, rfl, by decide, rfl, by decide⟩,
   goal_reentrancy_guard GameScene.init
     { GameScene.init with goalDelay := 5 }
     { GameScene.init with goalDelay := 2 }
     ("left") (["left", "right", "left"]) ⟨0, 0, false⟩ ⟨0, 0, true⟩
     (Striker.init 900 350 1) (Striker.init 300 350 2)
     (Or.inl (by decide)) rfl rfl (by decide) rfl (by decide)⟩

/-- Claim C4: in a state that is not over, checkWinCondition ends the
game with winner 1 when player 1 has reached MAX_GOALS, else with
winner 2 when player 2 has, in both cases whatever the clock says;
otherwise at time up the strictly higher score wins and equal scores
tie (winner 0); otherwise nothing changes.  Scenario states: e is 9-9
with the goal limit 10 and a left goal, f is time up at 4-6, g is time
up at 5-5. -/
theorem checkWinCondition_cases
    (a b c d e f g : GameState)
    (ha0 : a.gameOver = false) (ha1 : MAX_GOALS ≤ a.player1Score)
    (hb0 : b.gameOver = false) (hb1 : b.player1Score < MAX_GOALS)
    (hb2 : MAX_GOALS ≤ b.player2Score)
    (hc0 : c.gameOver = false) (hc1 : c.player1Score < MAX_GOALS)
    (hc2 : c.player2Score < MAX_GOALS) (hc3 : c.gameTime ≤ 0)
    (hd0 : d.gameOver = false) (hd1 : d.player1Score < MAX_GOALS)
    (hd2 : d.player2Score < MAX_GOALS) (hd3 : 0 < d.gameTime)
    (he0 : e.gameOver = false) (he1 : e.goalDelay = 0)
    (he2 : e.player1Score = 9) (he3 : e.player2Score = 9)
    (hf0 : f.gameOver = false) (hf1 : f.player1Score = 4)
    (hf2 : f.player2Score = 6) (hf3 : f.gameTime = 0)
    (hg0 : g.gameOver = false) (hg1 : g.player1Score = 5)
    (hg2 : g.player2Score = 5) (hg3 : g.gameTime = 0) :
    checkWinCondition a = endGame 1 a ∧
    checkWinCondition b = endGame 2 b ∧
    checkWinCondition c =
      endGame (if c.player2Score < c.player1Score then 1
               else if c.player1Score < c.player2Score then 2 else 0) c ∧
    checkWinCondition d = d ∧
    ((onGoalScored ("left") e).player2Score = 10 ∧
     (onGoalScored ("left") e).gameOver = true ∧
     (onGoalScored ("left") e).winner = some 2) ∧
    ((checkWinCondition f).gameOver = true ∧
     (checkWinCondition f).winner = some 2) ∧
    ((checkWinCondition g).gameOver = true ∧
     (checkWinCondition g).winner = some 0) := by
  have hmax : MAX_GOALS = 10 := rfl
  refine ⟨?_, ?_, ?_, ?_, ?_, ?_, ?_⟩
  · unfold checkWinCondition
    rw [if_neg (by simp [ha0]), if_pos ha1]
  · unfold checkWinCondition
    rw [if_neg (by simp [hb0]), if_neg (by omega), if_pos hb2]
  · unfold checkWinCondition
    rw [if_neg (by simp [hc0]), if_neg (by omega), if_neg (by omega),
        if_pos hc3]
    rcases lt_trichotomy c.player1Score c.player2Score with h | h | h
    · rw [if_neg (by omega), if_pos h, if_neg (by omega), if_pos h]
    · rw [if_neg (by omega), if_neg (by omega), if_neg (by omega),
          if_neg (by omega)]
    · rw [if_pos h, if_pos h]
  · unfold checkWinCondition
    rw [if_neg (by simp [hd0]), if_neg (by omega), if_neg (by omega),
        if_neg (by omega)]
  · rw [onGoalScored_fresh_eq ("left") e he0 he1]
    simp only [String.reduceEq, reduceIte]
    unfold checkWinCondition endGame
    simp [he0, he2, he3, hmax, MAX_GOALS]
  · unfold checkWinCondition endGame
    simp [hf0, hf1, hf2, hf3, MAX_GOALS]
  · unfold checkWinCondition endGame
    simp [hg0, hg1, hg2, hg3, MAX_GOALS]

/-- Witness for claim C4 at concrete score and clock fixtures. -/
theorem checkWinCondition_cases_witness :
    ((stateWithScores 10 0 300).gameOver = false ∧
     MAX_GOALS ≤ (stateWithScores 10 0 300).player1Score ∧
     (stateWithScores 0 11 300).gameOver = false ∧
     (stateWithScores 0 11 300).player1Score < MAX_GOALS ∧
     MAX_GOALS ≤ (stateWithScores 0 11 300).player2Score ∧
     (stateWithScores 4 6 0).gameOver = false ∧
     (stateWithScores 4 6 0).player1Score < MAX_GOALS ∧
     (stateWithScores 4 6 0).player2Score < MAX_GOALS ∧
     (stateWithScores 4 6 0).gameTime ≤ 0 ∧
     (stateWithScores 0 0 300).gameOver = false ∧
     (stateWithScores 0 0 300).player1Score < MAX_GOALS ∧
     (stateWithScores 0 0 300).player2Score < MAX_GOALS ∧
     0 < (stateWithScores 0 0 300).gameTime ∧
     (stateWithScores 9 9 300).gameOver = false ∧
     (stateWithScores 9 9 300).goalDelay = 0 ∧
     (stateWithScores 9 9 300).player1Score = 9 ∧
     (stateWithScores 9 9 300).player2Score = 9 ∧
     (stateWithScores 4 6 0).gameOver = false ∧
     (stateWithScores 4 6 0).player1Score = 4 ∧
     (stateWithScores 4 6 0).player2Score = 6 ∧
     (stateWithScores 4 6 0).gameTime = 0 ∧
     (stateWithScores 5 5 0).gameOver = false ∧
     (stateWithScores 5 5 0).player1Score = 5 ∧
     (stateWithScores 5 5 0).player2Score = 5 ∧
     (stateWithScores 5 5 0).gameTime = 0) ∧
    (checkWinCondition (stateWithScores 10 0 300) =
       endGame 1 (stateWithScores 10 0 300) ∧
     checkWinCondition (stateWithScores 0 11 300) =
       endGame 2 (stateWithScores 0 11 300) ∧
     checkWinCondition (stateWithScores 4 6 0) =
       endGame
         (if (stateWithScores 4 6 0).player2Score <
             (stateWithScores 4 6 0).player1Score then 1
          else if (stateWithScores 4 6 0).player1Score <
             (stateWithScores 4 6 0).player2Score then 2 else 0)
         (stateWithScores 4 6 0) ∧
     checkWinCondition (stateWithScores 0 0 300) = stateWithScores 0 0 300 ∧
     ((onGoalScored ("left") (stateWithScores 9 9 300)).player2Score = 10 ∧
      (onGoalScored ("left") (stateWithScores 9 9 300)).gameOver = true ∧
      (onGoalScored ("left") (stateWithScores 9 9 300)).winner = some 2) ∧
     ((checkWinCondition (stateWithScores 4 6 0)).gameOver = true ∧
      (checkWinCondition (stateWithScores 4 6 0)).winner = some 2) ∧
     ((checkWinCondition (stateWithScores 5 5 0)).gameOver = true ∧
      (checkWinCondition (stateWithScores 5 5 0)).winner = some 0)) :=
  ⟨⟨rfl, by decide, rfl, by decide, by decide, rfl, by decide, by decide,
    by decide, rfl, by decide, by decide, by decide, rfl, rfl, rfl, rfl,
    rfl, rfl, rfl, rfl, rfl, rfl, rfl, rfl⟩,
   checkWinCondition_cases (stateWithScores 10 0 300) (stateWithScores 0 11 300)
     (stateWithScores 4 6 0) (stateWithScores 0 0 300) (stateWithScores 9 9 300)
     (stateWithScores 4 6 0) (stateWithScores 5 5 0)
     rfl (by decide) rfl (by decide) (by decide) rfl (by decide) (by decide)
     (by decide) rfl (by decide) (by decide) (by decide) rfl rfl rfl rfl
     rfl rfl rfl rfl rfl rfl rfl rfl⟩

/-- Claim C5: once the game is over, checkWinCondition, updateTimer,
onGoalScored and the per-frame update all return the state (and the
strikers) unchanged, so no score, clock, delay, winner or finished
signal ever changes again; iterating checkWinCondition any number of
times is likewise the identity. -/
theorem ended_state_noop (s : GameState) (side : String)
    (p1 p2 : InputSample) (st1 st2 : StrikerState) (n : ℕ)
    (h : s.gameOver = true) :
    checkWinCondition s = s ∧
    updateTimer s = s ∧
    onGoalScored side s = s ∧
    GameScene.update p1 p2 s st1 st2 = (s, st1, st2) ∧
    checkWinCondition^[n] s = s := by
  have hc : checkWinCondition s = s := by
    unfold checkWinCondition
    rw [if_pos h]
  refine ⟨hc, ?_, ?_, ?_, Function.iterate_fixed hc n⟩
  · unfold updateTimer
    rw [if_pos h]
  · unfold onGoalScored
    rw [if_pos (Or.inr h)]
  · unfold GameScene.update
    rw [if_pos h]

/-- Witness for claim C5 at a concrete ended state. -/
theorem ended_state_noop_witness :
    ({ GameScene.init with gameOver := true } : GameState).gameOver = true ∧
    (checkWinCondition { GameScene.init with gameOver := true } =
       { GameScene.init with gameOver := true } ∧
     updateTimer { GameScene.init with gameOver := true } =
       { GameScene.init with gameOver := true } ∧
     onGoalScored ("left") { GameScene.init with gameOver := true } =
       { GameScene.init with gameOver := true } ∧
     GameScene.update ⟨5, 5, true⟩ ⟨7, 7, false⟩
         { GameScene.init with gameOver := true }
         (Striker.init 900 350 1) (Striker.init 300 350 2) =
       ({ GameScene.init with gameOver := true }, Striker.init 900 350 1,
        Striker.init 300 350 2) ∧
     checkWinCondition^[3] { GameScene.init with gameOver := true } =
       { GameScene.init with gameOver := true }) :=
  ⟨rfl,
   ended_state_noop { GameScene.init with gameOver := true } ("left")
     ⟨5, 5, true⟩ ⟨7, 7, false⟩ (Striker.init 900 350 1)
     (Striker.init 300 350 2) 3 rfl⟩

/-- Claim C6: for every pre-reset puck state, Puck.reset returns the
puck to its stored spawn coordinates with zero linear and angular
velocity; the scene spawns the puck at the field centre; a counted
goal runs reset exactly once, an ignored goal event and the per-frame
update never touch the puck. -/
theorem puck_reset_spec (p : PuckState) (s s2 : GameState)
    (side side2 : String) (p1 p2 : InputSample) (st1 st2 : StrikerState)
    (h0 : s.gameOver = false) (h1 : s.goalDelay = 0)
    (h2 : 0 < s2.goalDelay ∨ s2.gameOver = true) :
    (Puck.reset p).pos = ⟨p.startX, p.startY⟩ ∧
    (Puck.reset p).vel = ⟨0, 0⟩ ∧
    (Puck.reset p).angVel = 0 ∧
    createPuck.startX = GAME_WIDTH / 2 ∧
    createPuck.startY = GAME_HEIGHT / 2 ∧
    (onGoalScored side s).puck.resetCount = s.puck.resetCount + 1 ∧
    (onGoalScored side2 s2).puck = s2.puck ∧
    ((GameScene.update p1 p2 s st1 st2).1).puck = s.puck := by
  refine ⟨rfl, rfl, rfl, rfl, rfl, ?_, ?_, ?_⟩
  · rw [onGoalScored_fresh_eq side s h0 h1, checkWinCondition_puck]
    simp [Puck.reset]
  · unfold onGoalScored
    rw [if_pos h2]
  · simp [GameScene.update, h0, h1]

/-- Witness for claim C6 with a fast-moving off-centre puck. -/
theorem puck_reset_spec_witness :
    (GameScene.init.gameOver = false ∧ GameScene.init.goalDelay = 0 ∧
     (0 < ({ GameScene.init with goalDelay := 9 } : GameState).goalDelay ∨
      ({ GameScene.init with goalDelay := 9 } : GameState).gameOver = true)) ∧
    ((Puck.reset ⟨600, 350, ⟨1, 2⟩, ⟨3000, -4000⟩, 55, 0⟩).pos =
       ⟨(⟨600, 350, ⟨1, 2⟩, ⟨3000, -4000⟩, 55, 0⟩ : PuckState).startX,
        (⟨600, 350, ⟨1, 2⟩, ⟨3000, -4000⟩, 55, 0⟩ : PuckState).startY⟩ ∧
     (Puck.reset ⟨600, 350, ⟨1, 2⟩, ⟨3000, -4000⟩, 55, 0⟩).vel = ⟨0, 0⟩ ∧
     (Puck.reset ⟨600, 350, ⟨1, 2⟩, ⟨3000, -4000⟩, 55, 0⟩).angVel = 0 ∧
     createPuck.startX = GAME_WIDTH / 2 ∧
     createPuck.startY = GAME_HEIGHT / 2 ∧
     (onGoalScored ("right") GameScene.init).puck.resetCount =
       GameScene.init.puck.resetCount + 1 ∧
     (onGoalScored ("left") { GameScene.init with goalDelay := 9 }).puck =
       ({ GameScene.init with goalDelay := 9 } : GameState).puck ∧
     ((GameScene.update ⟨1, 1, true⟩ ⟨2, 2, true⟩ GameScene.init
         (Striker.init 900 350 1) (Striker.init 300 350 2)).1).puck =
       GameScene.init.puck) :=
  ⟨⟨rfl, rfl, Or.inl (by decide)⟩,
   puck_reset_spec ⟨600, 350, ⟨1, 2⟩, ⟨3000, -4000⟩, 55, 0⟩ GameScene.init
     { GameScene.init with goalDelay := 9 } ("right") ("left")
     ⟨1, 1, true⟩ ⟨2, 2, true⟩ (Striker.init 900 350 1)
     (Striker.init 300 350 2) rfl rfl (Or.inl (by decide))⟩

/-- Claim C7: for every input sample, Striker.setPosition lands inside
the movement band, out-of-band coordinates are clamped componentwise to
the nearest band boundary, and the constructor assigns player 1 the
right-half band, player 2 the left-half band, and both the full
vertical range minus the radius. -/
theorem striker_setPosition_clamps (st : StrikerState) (x y sx sy : ℚ)
    (hx : st.minX ≤ st.maxX) (hy : st.minY ≤ st.maxY) :
    st.minX ≤ (Striker.setPosition st x y).pos.x ∧
    (Striker.setPosition st x y).pos.x ≤ st.maxX ∧
    st.minY ≤ (Striker.setPosition st x y).pos.y ∧
    (Striker.setPosition st x y).pos.y ≤ st.maxY ∧
    (Striker.setPosition st x y).pos.x =
      (if x < st.minX then st.minX else if st.maxX < x then st.maxX else x) ∧
    (Striker.setPosition st x y).pos.y =
      (if y < st.minY then st.minY else if st.maxY < y then st.maxY else y) ∧
    (Striker.init sx sy 1).minX = CENTER_LINE_X + STRIKER_RADIUS ∧
    (Striker.init sx sy 1).maxX = GAME_WIDTH - STRIKER_RADIUS ∧
    (Striker.init sx sy 2).minX = STRIKER_RADIUS ∧
    (Striker.init sx sy 2).maxX = CENTER_LINE_X - STRIKER_RADIUS ∧
    (Striker.init sx sy 1).minY = STRIKER_RADIUS ∧
    (Striker.init sx sy 1).maxY = GAME_HEIGHT - STRIKER_RADIUS ∧
    (Striker.init sx sy 2).minY = STRIKER_RADIUS ∧
    (Striker.init sx sy 2).maxY = GAME_HEIGHT - STRIKER_RADIUS := by
  refine ⟨?_, ?_, ?_, ?_, ?_, ?_, rfl, rfl, rfl, rfl, rfl, rfl, rfl, rfl⟩
  · show st.minX ≤ min (max x st.minX) st.maxX
    exact le_min (le_max_right _ _) hx
  · show min (max x st.minX) st.maxX ≤ st.maxX
    exact min_le_right _ _
  · show st.minY ≤ min (max y st.minY) st.maxY
    exact le_min (le_max_right _ _) hy
  · show min (max y st.minY) st.maxY ≤ st.maxY
    exact min_le_right _ _
  · show min (max x st.minX) st.maxX = _
    split_ifs with h1 h2
    · rw [max_eq_right h1.le, min_eq_left hx]
    · rw [max_eq_left (not_lt.1 h1), min_eq_right h2.le]
    · rw [max_eq_left (not_lt.1 h1), min_eq_left (not_lt.1 h2)]
  · show min (max y st.minY) st.maxY = _
    split_ifs with h1 h2
    · rw [max_eq_right h1.le, min_eq_left hy]
    · rw [max_eq_left (not_lt.1 h1), min_eq_right h2.le]
    · rw [max_eq_left (not_lt.1 h1), min_eq_left (not_lt.1 h2)]

/-- Witness for claim C7: an input far right and above the field on the
player 1 striker. -/
theorem striker_setPosition_clamps_witness :
    ((Striker.init 900 350 1).minX ≤ (Striker.init 900 350 1).maxX ∧
     (Striker.init 900 350 1).minY ≤ (Striker.init 900 350 1).maxY) ∧
    ((Striker.init 900 350 1).minX ≤
       (Striker.setPosition (Striker.init 900 350 1) 5000 (-100)).pos.x ∧
     (Striker.setPosition (Striker.init 900 350 1) 5000 (-100)).pos.x ≤
       (Striker.init 900 350 1).maxX ∧
     (Striker.init 900 350 1).minY ≤
       (Striker.setPosition (Striker.init 900 350 1) 5000 (-100)).pos.y ∧
     (Striker.setPosition (Striker.init 900 350 1) 5000 (-100)).pos.y ≤
       (Striker.init 900 350 1).maxY ∧
     (Striker.setPosition (Striker.init 900 350 1) 5000 (-100)).pos.x =
       (if (5000 : ℚ) < (Striker.init 900 350 1).minX then
          (Striker.init 900 350 1).minX
        else if (Striker.init 900 350 1).maxX < 5000 then
          (Striker.init 900 350 1).maxX
        else 5000) ∧
     (Striker.setPosition (Striker.init 900 350 1) 5000 (-100)).pos.y =
       (if (-100 : ℚ) < (Striker.init 900 350 1).minY then
          (Striker.init 900 350 1).minY
        else if (Striker.init 900 350 1).maxY < -100 then
          (Striker.init 900 350 1).maxY
        else -100) ∧
     (Striker.init 900 350 1).minX = CENTER_LINE_X + STRIKER_RADIUS ∧
     (Striker.init 900 350 1).maxX = GAME_WIDTH - STRIKER_RADIUS ∧
     (Striker.init 900 350 2).minX = STRIKER_RADIUS ∧
     (Striker.init 900 350 2).maxX = CENTER_LINE_X - STRIKER_RADIUS ∧
     (Striker.init 900 350 1).minY = STRIKER_RADIUS ∧
     (Striker.init 900 350 1).maxY = GAME_HEIGHT - STRIKER_RADIUS ∧
     (Striker.init 900 350 2).minY = STRIKER_RADIUS ∧
     (Striker.init 900 350 2).maxY = GAME_HEIGHT - STRIKER_RADIUS) :=
  ⟨⟨by norm_num [Striker.init, CENTER_LINE_X, STRIKER_RADIUS, GAME_WIDTH,
       GAME_HEIGHT],
    by norm_num [Striker.init, STRIKER_RADIUS, GAME_HEIGHT]⟩,
   striker_setPosition_clamps (Striker.init 900 350 1) 5000 (-100) 900 350
     (by norm_num [Striker.init, CENTER_LINE_X, STRIKER_RADIUS, GAME_WIDTH,
        GAME_HEIGHT])
     (by norm_num [Striker.init, STRIKER_RADIUS, GAME_HEIGHT])⟩

/-- Claim C9: createChain places link i on the straight line from the
striker spawn to the hammer spawn at fraction (i+1)/(segments+1), and
builds exactly segments + 1 constraints, all with rest length
SEGMENT_LENGTH, stiffness CHAIN_STIFFNESS and damping CHAIN_DAMPING,
joining striker, link 0, ..., link 7, hammer in order. -/
theorem chain_creation_layout (sp hp : Vec2) (i : ℕ)
    (h : i < CHAIN_SEGMENTS) :
    ((ChainSystem.createChain sp hp).1).length = CHAIN_SEGMENTS ∧
    ((ChainSystem.createChain sp hp).1).getD i ⟨0, 0⟩ =
      ⟨sp.x + (hp.x - sp.x) * ((i : ℚ) + 1) / ((CHAIN_SEGMENTS : ℚ) + 1),
       sp.y + (hp.y - sp.y) * ((i : ℚ) + 1) / ((CHAIN_SEGMENTS : ℚ) + 1)⟩ ∧
    ((ChainSystem.createChain sp hp).2).length = CHAIN_SEGMENTS + 1 ∧
    ((ChainSystem.createChain sp hp).2) =
      [⟨.strikerBody, .segment 0, SEGMENT_LENGTH, CHAIN_STIFFNESS, CHAIN_DAMPING⟩,
       ⟨.segment 0, .segment 1, SEGMENT_LENGTH, CHAIN_STIFFNESS, CHAIN_DAMPING⟩,
       ⟨.segment 1, .segment 2, SEGMENT_LENGTH, CHAIN_STIFFNESS, CHAIN_DAMPING⟩,
       ⟨.segment 2, .segment 3, SEGMENT_LENGTH, CHAIN_STIFFNESS, CHAIN_DAMPING⟩,
       ⟨.segment 3, .segment 4, SEGMENT_LENGTH, CHAIN_STIFFNESS, CHAIN_DAMPING⟩,
       ⟨.segment 4, .segment 5, SEGMENT_LENGTH, CHAIN_STIFFNESS, CHAIN_DAMPING⟩,
       ⟨.segment 5, .segment 6, SEGMENT_LENGTH, CHAIN_STIFFNESS, CHAIN_DAMPING⟩,
       ⟨.segment 6, .segment 7, SEGMENT_LENGTH, CHAIN_STIFFNESS, CHAIN_DAMPING⟩,
       ⟨.segment 7, .hammerBody, SEGMENT_LENGTH, CHAIN_STIFFNESS, CHAIN_DAMPING⟩] := by
  refine ⟨rfl, ?_, rfl, rfl⟩
  unfold ChainSystem.createChain
  simp only [List.getD_eq_getElem?_getD, List.getElem?_map, List.getElem?_range,
    h, if_pos, Option.map_some', Option.getD_some, Vec2.mk.injEq]
  constructor <;> ring

/-- Witness for claim C9 at link 3 of a chain from the origin to (9, 18). -/
theorem chain_creation_layout_witness :
    ((3 : ℕ) < CHAIN_SEGMENTS) ∧
    (((ChainSystem.createChain ⟨0, 0⟩ ⟨9, 18⟩).1).length = CHAIN_SEGMENTS ∧
     ((ChainSystem.createChain ⟨0, 0⟩ ⟨9, 18⟩).1).getD 3 ⟨0, 0⟩ =
       ⟨(⟨0, 0⟩ : Vec2).x + ((⟨9, 18⟩ : Vec2).x - (⟨0, 0⟩ : Vec2).x) *
          (((3 : ℕ) : ℚ) + 1) / ((CHAIN_SEGMENTS : ℚ) + 1),
        (⟨0, 0⟩ : Vec2).y + ((⟨9, 18⟩ : Vec2).y - (⟨0, 0⟩ : Vec2).y) *
          (((3 : ℕ) : ℚ) + 1) / ((CHAIN_SEGMENTS : ℚ) + 1)⟩ ∧
     ((ChainSystem.createChain ⟨0, 0⟩ ⟨9, 18⟩).2).length = CHAIN_SEGMENTS + 1 ∧
     ((ChainSystem.createChain ⟨0, 0⟩ ⟨9, 18⟩).2) =
       [⟨.strikerBody, .segment 0, SEGMENT_LENGTH, CHAIN_STIFFNESS, CHAIN_DAMPING⟩,
        ⟨.segment 0, .segment 1, SEGMENT_LENGTH, CHAIN_STIFFNESS, CHAIN_DAMPING⟩,
        ⟨.segment 1, .segment 2, SEGMENT_LENGTH, CHAIN_STIFFNESS, CHAIN_DAMPING⟩,
        ⟨.segment 2, .segment 3, SEGMENT_LENGTH, CHAIN_STIFFNESS, CHAIN_DAMPING⟩,
        ⟨.segment 3, .segment 4, SEGMENT_LENGTH, CHAIN_STIFFNESS, CHAIN_DAMPING⟩,
        ⟨.segment 4, .segment 5, SEGMENT_LENGTH, CHAIN_STIFFNESS, CHAIN_DAMPING⟩,
        ⟨.segment 5, .segment 6, SEGMENT_LENGTH, CHAIN_STIFFNESS, CHAIN_DAMPING⟩,
        ⟨.segment 6, .segment 7, SEGMENT_LENGTH, CHAIN_STIFFNESS, CHAIN_DAMPING⟩,
        ⟨.segment 7, .hammerBody, SEGMENT_LENGTH, CHAIN_STIFFNESS, CHAIN_DAMPING⟩]) :=
  ⟨by decide, chain_creation_layout ⟨0, 0⟩ ⟨9, 18⟩ 3 (by decide)⟩

end ChainHockey
